import Mathlib

/-!
# StatsPullAtomService JNI shim

A shallow embedding of
`services/core/jni/com_android_server_stats_pull_StatsPullAtomService.cpp`.

The translation unit owns two file-static puller objects and talks to four
facilities that live elsewhere: the two puller classes, the pull-atom
registration call, `jniRegisterNativeMethods` and the `ALOGE` log macro.
The types and operations of those facilities are collected in `Platform`
and left arbitrary.  Every call that leaves the translation unit is recorded,
in program order, in the `effects` trace of the `World`; the registration
log, the error log and the call logs are the corresponding sub-sequences of
that trace.
-/

namespace android

/-- A `void*` value: `none` is `nullptr`, `some a` is the address `a`. -/
abbrev VoidPtr := Option Nat

/-- The functions of this translation unit whose address is handed to
`register_stats_pull_atom_callback`. -/
inductive PullCallback where
  | onDevicePowerMeasurementCallback
  | subsystemSleepStateCallback
deriving DecidableEq, Repr

/-- The functions of this translation unit whose address is stored in a
`JNINativeMethod` entry. -/
inductive NativeFn where
  | nativeInit
deriving DecidableEq, Repr

/-- One entry of a JNI method table: `{name, signature, fnPtr}`. -/
structure JNINativeMethod where
  name : String
  signature : String
  fnPtr : NativeFn
deriving DecidableEq, Repr

/-- The types, constants and operations the translation unit uses but does not
define.  The pullers are values with a default constructor and a `Pull` method
that returns a status and may change both the event list it is given and the
puller itself. -/
structure Platform where
  JNIEnv : Type
  jobject : Type
  pulled_stats_event_list : Type
  status_pull_atom_return_t : Type
  pull_atom_metadata : Type
  PowerStatsPuller : Type
  SubsystemSleepStatePuller : Type
  ON_DEVICE_POWER_MEASUREMENT : Int
  SUBSYSTEM_SLEEP_STATE : Int
  PowerStatsPuller_ctor : PowerStatsPuller
  SubsystemSleepStatePuller_ctor : SubsystemSleepStatePuller
  PowerStatsPuller_Pull : PowerStatsPuller → Int → pulled_stats_event_list →
    status_pull_atom_return_t × pulled_stats_event_list × PowerStatsPuller
  SubsystemSleepStatePuller_Pull : SubsystemSleepStatePuller → Int → pulled_stats_event_list →
    status_pull_atom_return_t × pulled_stats_event_list × SubsystemSleepStatePuller
  jniRegisterNativeMethods : JNIEnv → String → List JNINativeMethod → Int → Int

/-- The four arguments of one `register_stats_pull_atom_callback` call. -/
structure Registration (P : Platform) where
  atom_tag : Int
  callback : PullCallback
  metadata : Option P.pull_atom_metadata
  cookie : VoidPtr

/-- The four arguments of one `jniRegisterNativeMethods` call. -/
structure JniCall (P : Platform) where
  env : P.JNIEnv
  className : String
  methods : List JNINativeMethod
  numMethods : Int

/-- Everything the translation unit does that is visible outside a function
body, one constructor per kind of statement. -/
inductive Effect (P : Platform) where
  | assign_gPowerStatsPuller (v : P.PowerStatsPuller)
  | assign_gSubsystemSleepStatePuller (v : P.SubsystemSleepStatePuller)
  | register_stats_pull_atom_callback (r : Registration P)
  | jniRegisterNativeMethods (c : JniCall P)
  | ALOGE (tag : String) (msg : String)
  | gPowerStatsPuller_Pull (atom_tag : Int) (data : P.pulled_stats_event_list)
  | gSubsystemSleepStatePuller_Pull (atom_tag : Int) (data : P.pulled_stats_event_list)

/-- Program state: the two file-static pullers and the trace of effects so far. -/
structure World (P : Platform) where
  gPowerStatsPuller : P.PowerStatsPuller
  gSubsystemSleepStatePuller : P.SubsystemSleepStatePuller
  effects : List (Effect P)

/-! ## Views of the trace -/

/-- The registration carried by an effect, if it is one. -/
def Effect.registration? {P : Platform} : Effect P → Option (Registration P)
  | .register_stats_pull_atom_callback r => some r
  | _ => none

/-- The JNI registration call carried by an effect, if it is one. -/
def Effect.jniCall? {P : Platform} : Effect P → Option (JniCall P)
  | .jniRegisterNativeMethods c => some c
  | _ => none

/-- The error message (tag, text) carried by an effect, if it is one. -/
def Effect.error? {P : Platform} : Effect P → Option (String × String)
  | .ALOGE tag msg => some (tag, msg)
  | _ => none

/-- The arguments of a `gPowerStatsPuller.Pull` call, if the effect is one. -/
def Effect.powerPull? {P : Platform} : Effect P → Option (Int × P.pulled_stats_event_list)
  | .gPowerStatsPuller_Pull t d => some (t, d)
  | _ => none

/-- The arguments of a `gSubsystemSleepStatePuller.Pull` call, if the effect is one. -/
def Effect.sleepPull? {P : Platform} : Effect P → Option (Int × P.pulled_stats_event_list)
  | .gSubsystemSleepStatePuller_Pull t d => some (t, d)
  | _ => none

/-- The registration log: all pull-atom callback registrations, oldest first. -/
def registrationLog {P : Platform} (w : World P) : List (Registration P) :=
  w.effects.filterMap Effect.registration?

/-- All calls of `jniRegisterNativeMethods`, oldest first. -/
def jniCalls {P : Platform} (w : World P) : List (JniCall P) :=
  w.effects.filterMap Effect.jniCall?

/-- The error log: all messages written with `ALOGE`, oldest first. -/
def errorLog {P : Platform} (w : World P) : List (String × String) :=
  w.effects.filterMap Effect.error?

/-- All calls of `gPowerStatsPuller.Pull`, oldest first. -/
def powerPullCalls {P : Platform} (w : World P) : List (Int × P.pulled_stats_event_list) :=
  w.effects.filterMap Effect.powerPull?

/-- All calls of `gSubsystemSleepStatePuller.Pull`, oldest first. -/
def sleepPullCalls {P : Platform} (w : World P) : List (Int × P.pulled_stats_event_list) :=
  w.effects.filterMap Effect.sleepPull?

/-! ## Statements that leave the translation unit -/

/-- Record one effect at the end of the trace. -/
def World.emit {P : Platform} (w : World P) (e : Effect P) : World P :=
  { w with effects := w.effects ++ [e] }

/-- The `#define LOG_TAG` of the translation unit. -/
def LOG_TAG : String := "StatsPullAtomService"

/-- Modelled from the spec: the registration call of `stats_pull_atom_callback.h`
is not part of the sources.  It accepts an atom-type identifier, a callback
pointer, optional metadata and an optional cookie, returns nothing, and is
modelled as appending those four values to the registration log. -/
def register_stats_pull_atom_callback {P : Platform} (atom_tag : Int) (callback : PullCallback)
    (metadata : Option P.pull_atom_metadata) (cookie : VoidPtr) (w : World P) : World P :=
  w.emit (.register_stats_pull_atom_callback ⟨atom_tag, callback, metadata, cookie⟩)

/-- Modelled from the spec: the `ALOGE` macro of `log/log.h` is not part of the
sources.  It writes one error message under `LOG_TAG`, modelled as appending the
message to the error log. -/
def ALOGE {P : Platform} (msg : String) (w : World P) : World P :=
  w.emit (.ALOGE LOG_TAG msg)

/-- Modelled from the spec: the `NELEM` macro of `nativehelper/JNIHelp.h` is not
part of the sources.  It is the number of elements of the array it is given. -/
def NELEM {α : Type} (xs : List α) : Nat := xs.length

/-- The call `jniRegisterNativeMethods(env, className, methods, numMethods)`:
records the call and yields the platform's result code. -/
def call_jniRegisterNativeMethods {P : Platform} (env : P.JNIEnv) (className : String)
    (methods : List JNINativeMethod) (numMethods : Int) (w : World P) : Int × World P :=
  (P.jniRegisterNativeMethods env className methods numMethods,
   w.emit (.jniRegisterNativeMethods ⟨env, className, methods, numMethods⟩))

/-- The call `gPowerStatsPuller.Pull(atom_tag, data)`: records the call, runs the
puller's method on the current global and stores the puller back. -/
def gPowerStatsPuller_Pull (P : Platform) (atom_tag : Int) (data : P.pulled_stats_event_list)
    (w : World P) : P.status_pull_atom_return_t × P.pulled_stats_event_list × World P :=
  let r := P.PowerStatsPuller_Pull w.gPowerStatsPuller atom_tag data
  (r.1, r.2.1,
   { w with gPowerStatsPuller := r.2.2,
            effects := w.effects ++ [.gPowerStatsPuller_Pull atom_tag data] })

/-- The call `gSubsystemSleepStatePuller.Pull(atom_tag, data)`: records the call,
runs the puller's method on the current global and stores the puller back. -/
def gSubsystemSleepStatePuller_Pull (P : Platform) (atom_tag : Int)
    (data : P.pulled_stats_event_list) (w : World P) :
    P.status_pull_atom_return_t × P.pulled_stats_event_list × World P :=
  let r := P.SubsystemSleepStatePuller_Pull w.gSubsystemSleepStatePuller atom_tag data
  (r.1, r.2.1,
   { w with gSubsystemSleepStatePuller := r.2.2,
            effects := w.effects ++ [.gSubsystemSleepStatePuller_Pull atom_tag data] })

/-- The statement `gPowerStatsPuller = v;`. -/
def assign_gPowerStatsPuller {P : Platform} (v : P.PowerStatsPuller) (w : World P) : World P :=
  { w with gPowerStatsPuller := v,
           effects := w.effects ++ [.assign_gPowerStatsPuller v] }

/-- The statement `gSubsystemSleepStatePuller = v;`. -/
def assign_gSubsystemSleepStatePuller {P : Platform} (v : P.SubsystemSleepStatePuller)
    (w : World P) : World P :=
  { w with gSubsystemSleepStatePuller := v,
           effects := w.effects ++ [.assign_gSubsystemSleepStatePuller v] }

/-! ## The translation unit -/

/-- Source lines 34-38. -/
def onDevicePowerMeasurementCallback (P : Platform) (atom_tag : Int)
    (data : P.pulled_stats_event_list) (_cookie : VoidPtr) (w : World P) :
    P.status_pull_atom_return_t × P.pulled_stats_event_list × World P :=
  gPowerStatsPuller_Pull P atom_tag data w

/-- Source lines 40-44. -/
def subsystemSleepStateCallback (P : Platform) (atom_tag : Int)
    (data : P.pulled_stats_event_list) (_cookie : VoidPtr) (w : World P) :
    P.status_pull_atom_return_t × P.pulled_stats_event_list × World P :=
  gSubsystemSleepStatePuller_Pull P atom_tag data w

/-- Calling through a registered callback pointer. -/
def PullCallback.call (P : Platform) (cb : PullCallback) (atom_tag : Int)
    (data : P.pulled_stats_event_list) (cookie : VoidPtr) (w : World P) :
    P.status_pull_atom_return_t × P.pulled_stats_event_list × World P :=
  match cb with
  | .onDevicePowerMeasurementCallback =>
    android.onDevicePowerMeasurementCallback P atom_tag data cookie w
  | .subsystemSleepStateCallback =>
    android.subsystemSleepStateCallback P atom_tag data cookie w

/-- Source lines 46-60. -/
def nativeInit (P : Platform) (_env : P.JNIEnv) (_javaObject : P.jobject) (w : World P) :
    World P :=
  -- on device power measurement
  let w := assign_gPowerStatsPuller P.PowerStatsPuller_ctor w
  let w := register_stats_pull_atom_callback P.ON_DEVICE_POWER_MEASUREMENT
    .onDevicePowerMeasurementCallback none none w
  -- subsystem sleep state
  let w := assign_gSubsystemSleepStatePuller P.SubsystemSleepStatePuller_ctor w
  register_stats_pull_atom_callback P.SUBSYSTEM_SLEEP_STATE
    .subsystemSleepStateCallback none none w

/-- Source line 62. -/
def sMethods : List JNINativeMethod := [⟨"nativeInit", "()V", .nativeInit⟩]

/-- Source lines 64-71. -/
def register_android_server_stats_pull_StatsPullAtomService (P : Platform) (env : P.JNIEnv)
    (w : World P) : Int × World P :=
  let r := call_jniRegisterNativeMethods env
    "com/android/server/stats/pull/StatsPullAtomService" sMethods (NELEM sMethods) w
  let res := r.1
  let w := r.2
  let w := if res < 0 then ALOGE "failed to register native methods" w else w
  (res, w)

/-- Calling `nativeInit` `n` times in sequence. -/
def nativeInitTimes (P : Platform) (env : P.JNIEnv) (javaObject : P.jobject) :
    Nat → World P → World P
  | 0, w => w
  | n + 1, w => nativeInit P env javaObject (nativeInitTimes P env javaObject n w)

/-- The registration `nativeInit` makes for the power measurement atom. -/
def powerRegistration (P : Platform) : Registration P :=
  ⟨P.ON_DEVICE_POWER_MEASUREMENT, .onDevicePowerMeasurementCallback, none, none⟩

/-- The registration `nativeInit` makes for the sleep state atom. -/
def sleepRegistration (P : Platform) : Registration P :=
  ⟨P.SUBSYSTEM_SLEEP_STATE, .subsystemSleepStateCallback, none, none⟩

/-- The four effects of one `nativeInit` call, in program order. -/
def nativeInitEffects (P : Platform) : List (Effect P) :=
  [.assign_gPowerStatsPuller P.PowerStatsPuller_ctor,
   .register_stats_pull_atom_callback (powerRegistration P),
   .assign_gSubsystemSleepStatePuller P.SubsystemSleepStatePuller_ctor,
   .register_stats_pull_atom_callback (sleepRegistration P)]

/-! ## A concrete platform -/

/-- A small platform: pullers are call counters, event lists are lists of
numbers, and JNI registration succeeds exactly on the expected class name and
method table. -/
@[reducible]
def demoPlatform : Platform where
  JNIEnv := Unit
  jobject := Unit
  pulled_stats_event_list := List Nat
  status_pull_atom_return_t := Int
  pull_atom_metadata := Unit
  PowerStatsPuller := Nat
  SubsystemSleepStatePuller := Nat
  ON_DEVICE_POWER_MEASUREMENT := 10038
  SUBSYSTEM_SLEEP_STATE := 10005
  PowerStatsPuller_ctor := 0
  SubsystemSleepStatePuller_ctor := 0
  PowerStatsPuller_Pull := fun p _ d => (0, d ++ [p], p + 1)
  SubsystemSleepStatePuller_Pull := fun p _ d => (1, d ++ [p + 100], p + 1)
  jniRegisterNativeMethods := fun _ cls ms n =>
    if cls = "com/android/server/stats/pull/StatsPullAtomService"
        ∧ ms = [⟨"nativeInit", "()V", .nativeInit⟩] ∧ n = 1 then 0 else -1

/-- A starting state of the demo platform with used pullers and an empty trace. -/
def demoWorld : World demoPlatform := ⟨(7 : Nat), (9 : Nat), []⟩

/-! ## Shared lemmas -/

/-- The trace after `nativeInit` is the old trace followed by its four effects. -/
theorem effects_nativeInit (P : Platform) (env : P.JNIEnv) (javaObject : P.jobject)
    (w : World P) :
    (nativeInit P env javaObject w).effects = w.effects ++ nativeInitEffects P := by
  simp [nativeInit, nativeInitEffects, powerRegistration, sleepRegistration,
    register_stats_pull_atom_callback, World.emit, assign_gPowerStatsPuller,
    assign_gSubsystemSleepStatePuller]

/-- The registration log after `nativeInit` is the old log followed by the two
registrations it makes. -/
theorem registrationLog_nativeInit (P : Platform) (env : P.JNIEnv) (javaObject : P.jobject)
    (w : World P) :
    registrationLog (nativeInit P env javaObject w)
      = registrationLog w ++ [powerRegistration P, sleepRegistration P] := by
  simp [registrationLog, effects_nativeInit, nativeInitEffects, Effect.registration?,
    List.filterMap_append]

/-- The trace after the registration function is the old trace, the one JNI call,
and the error message when the result is negative. -/
theorem effects_register (P : Platform) (env : P.JNIEnv) (w : World P) :
    (register_android_server_stats_pull_StatsPullAtomService P env w).2.effects
      = w.effects
        ++ [.jniRegisterNativeMethods
              ⟨env, "com/android/server/stats/pull/StatsPullAtomService", sMethods, 1⟩]
        ++ (if P.jniRegisterNativeMethods env
              "com/android/server/stats/pull/StatsPullAtomService" sMethods 1 < 0
            then [.ALOGE LOG_TAG "failed to register native methods"] else []) := by
  simp only [register_android_server_stats_pull_StatsPullAtomService,
    call_jniRegisterNativeMethods, NELEM, sMethods, List.length_singleton, Nat.cast_one]
  split <;> simp [ALOGE, World.emit]

/-- The registration function returns the result of its JNI call. -/
theorem fst_register (P : Platform) (env : P.JNIEnv) (w : World P) :
    (register_android_server_stats_pull_StatsPullAtomService P env w).1
      = P.jniRegisterNativeMethods env "com/android/server/stats/pull/StatsPullAtomService"
          sMethods 1 := by
  simp [register_android_server_stats_pull_StatsPullAtomService,
    call_jniRegisterNativeMethods, NELEM, sMethods]

/-- The error log after the registration function, by the sign of its result. -/
theorem errorLog_register (P : Platform) (env : P.JNIEnv) (w : World P) :
    errorLog (register_android_server_stats_pull_StatsPullAtomService P env w).2
      = errorLog w ++
        (if (register_android_server_stats_pull_StatsPullAtomService P env w).1 < 0
         then [(LOG_TAG, "failed to register native methods")] else []) := by
  rw [fst_register]
  unfold errorLog
  rw [effects_register]
  split <;> simp [Effect.error?, List.filterMap_append]

/-! ## Initialisation -/

/-- C1: from every starting state, one call of `nativeInit` appends exactly two
entries to the registration log: first the power measurement atom with
`onDevicePowerMeasurementCallback`, then the sleep state atom with
`subsystemSleepStateCallback`, each with null metadata and null cookie. -/
theorem nativeInit_appends_two_registrations (P : Platform) (env : P.JNIEnv)
    (javaObject : P.jobject) (w : World P) :
    registrationLog (nativeInit P env javaObject w)
      = registrationLog w ++
        [⟨P.ON_DEVICE_POWER_MEASUREMENT, .onDevicePowerMeasurementCallback, none, none⟩,
         ⟨P.SUBSYSTEM_SLEEP_STATE, .subsystemSleepStateCallback, none, none⟩]
    ∧ (registrationLog (nativeInit P env javaObject w)).length
        = (registrationLog w).length + 2 := by
  have h := registrationLog_nativeInit P env javaObject w
  refine ⟨h, ?_⟩
  rw [h]
  simp

/-- C6: whatever the two global pullers held before, after `nativeInit` both hold
the default-constructed value, and the trace grows by exactly four effects in
this order: power puller assigned, power callback registered, sleep state puller
assigned, sleep state callback registered. -/
theorem nativeInit_resets_pullers_in_order (P : Platform) (env : P.JNIEnv)
    (javaObject : P.jobject) (w : World P) :
    (nativeInit P env javaObject w).gPowerStatsPuller = P.PowerStatsPuller_ctor
    ∧ (nativeInit P env javaObject w).gSubsystemSleepStatePuller
        = P.SubsystemSleepStatePuller_ctor
    ∧ (nativeInit P env javaObject w).effects
        = w.effects ++
          [.assign_gPowerStatsPuller P.PowerStatsPuller_ctor,
           .register_stats_pull_atom_callback
              ⟨P.ON_DEVICE_POWER_MEASUREMENT, .onDevicePowerMeasurementCallback, none, none⟩,
           .assign_gSubsystemSleepStatePuller P.SubsystemSleepStatePuller_ctor,
           .register_stats_pull_atom_callback
              ⟨P.SUBSYSTEM_SLEEP_STATE, .subsystemSleepStateCallback, none, none⟩] := by
  refine ⟨rfl, rfl, ?_⟩
  exact effects_nativeInit P env javaObject w

/-- C9: `nativeInit` has no guard against repetition.  For every `n`, `n` calls in
sequence append the power and sleep state registrations `n` times over (so `2 * n`
entries), the trace shows both pullers assigned afresh in each call, both pullers
hold the default-constructed value after any positive number of calls, and a
second call changes the registration log left by the first. -/
theorem nativeInit_repeated (P : Platform) (env : P.JNIEnv) (javaObject : P.jobject)
    (n : Nat) (w : World P) :
    registrationLog (nativeInitTimes P env javaObject n w)
      = registrationLog w ++
        (List.replicate n [powerRegistration P, sleepRegistration P]).flatten
    ∧ (registrationLog (nativeInitTimes P env javaObject n w)).length
        = (registrationLog w).length + 2 * n
    ∧ (nativeInitTimes P env javaObject n w).effects
        = w.effects ++ (List.replicate n (nativeInitEffects P)).flatten
    ∧ (nativeInitTimes P env javaObject (n + 1) w).gPowerStatsPuller = P.PowerStatsPuller_ctor
    ∧ (nativeInitTimes P env javaObject (n + 1) w).gSubsystemSleepStatePuller
        = P.SubsystemSleepStatePuller_ctor
    ∧ registrationLog (nativeInit P env javaObject (nativeInit P env javaObject w))
        ≠ registrationLog (nativeInit P env javaObject w) := by
  have hlog : ∀ k, registrationLog (nativeInitTimes P env javaObject k w)
      = registrationLog w ++
        (List.replicate k [powerRegistration P, sleepRegistration P]).flatten := by
    intro k
    induction k with
    | zero => simp [nativeInitTimes]
    | succ k ih =>
      rw [nativeInitTimes, registrationLog_nativeInit, ih, List.replicate_succ',
        List.flatten_append]
      simp
  have heff : ∀ k, (nativeInitTimes P env javaObject k w).effects
      = w.effects ++ (List.replicate k (nativeInitEffects P)).flatten := by
    intro k
    induction k with
    | zero => simp [nativeInitTimes]
    | succ k ih =>
      rw [nativeInitTimes, effects_nativeInit, ih, List.replicate_succ', List.flatten_append]
      simp
  refine ⟨hlog n, ?_, heff n, rfl, rfl, ?_⟩
  · rw [hlog n]
    simp [Nat.mul_comm]
  · intro h
    have hl := congrArg List.length h
    rw [registrationLog_nativeInit, registrationLog_nativeInit] at hl
    simp at hl

/-! ## The callback trampolines -/

/-- C8: the cookie has no influence on either trampoline: for every atom tag,
event list and state and any two cookies, the two runs yield the same status, the
same event list and the same final state (pullers and trace). -/
theorem trampolines_ignore_cookie (P : Platform) (atom_tag : Int)
    (data : P.pulled_stats_event_list) (c1 c2 : VoidPtr) (w : World P) :
    onDevicePowerMeasurementCallback P atom_tag data c1 w
      = onDevicePowerMeasurementCallback P atom_tag data c2 w
    ∧ subsystemSleepStateCallback P atom_tag data c1 w
      = subsystemSleepStateCallback P atom_tag data c2 w :=
  ⟨rfl, rfl⟩

/-! ## Native method registration -/

/-- C2: the value `register_android_server_stats_pull_StatsPullAtomService`
returns is the value `jniRegisterNativeMethods` returned for the class name, the
method table and its length, whatever that value is. -/
theorem register_returns_jni_result (P : Platform) (env : P.JNIEnv) (w : World P) :
    (register_android_server_stats_pull_StatsPullAtomService P env w).1
      = P.jniRegisterNativeMethods env "com/android/server/stats/pull/StatsPullAtomService"
          [⟨"nativeInit", "()V", .nativeInit⟩] 1 :=
  fst_register P env w

/-- C3: the function calls `jniRegisterNativeMethods` once, on the class name, the
one-entry method table and count 1, and the value of that call alone decides the
error log: the log grows by the single message "failed to register native
methods" if and only if that value is below zero, and stays exactly as it was if
and only if that value is zero or positive. -/
theorem register_logs_error_iff_negative (P : Platform) (env : P.JNIEnv) (w : World P) :
    jniCalls (register_android_server_stats_pull_StatsPullAtomService P env w).2
      = jniCalls w ++
        [⟨env, "com/android/server/stats/pull/StatsPullAtomService",
          [⟨"nativeInit", "()V", .nativeInit⟩], 1⟩]
    ∧ errorLog (register_android_server_stats_pull_StatsPullAtomService P env w).2
      = errorLog w ++
        (if P.jniRegisterNativeMethods env
            "com/android/server/stats/pull/StatsPullAtomService"
            [⟨"nativeInit", "()V", .nativeInit⟩] 1 < 0
         then [("StatsPullAtomService", "failed to register native methods")] else [])
    ∧ (errorLog (register_android_server_stats_pull_StatsPullAtomService P env w).2
        = errorLog w ++ [("StatsPullAtomService", "failed to register native methods")]
      ↔ P.jniRegisterNativeMethods env
          "com/android/server/stats/pull/StatsPullAtomService"
          [⟨"nativeInit", "()V", .nativeInit⟩] 1 < 0)
    ∧ (errorLog (register_android_server_stats_pull_StatsPullAtomService P env w).2
        = errorLog w
      ↔ 0 ≤ P.jniRegisterNativeMethods env
          "com/android/server/stats/pull/StatsPullAtomService"
          [⟨"nativeInit", "()V", .nativeInit⟩] 1) := by
  have hres := fst_register P env w
  simp only [sMethods] at hres
  have hlog := errorLog_register P env w
  simp only [LOG_TAG, hres] at hlog
  have hcalls : jniCalls (register_android_server_stats_pull_StatsPullAtomService P env w).2
      = jniCalls w ++
        [⟨env, "com/android/server/stats/pull/StatsPullAtomService",
          [⟨"nativeInit", "()V", .nativeInit⟩], 1⟩] := by
    unfold jniCalls
    rw [effects_register]
    simp only [sMethods]
    split <;> simp [Effect.jniCall?, List.filterMap_append]
  refine ⟨hcalls, hlog, ?_, ?_⟩
  · rw [hlog]
    split <;> simp_all
  · rw [hlog]
    split
    · simp_all
    · simp_all [Int.not_lt]

/-- C5: the function hands `jniRegisterNativeMethods` the class name
"com/android/server/stats/pull/StatsPullAtomService" and a table of exactly one
entry (name "nativeInit", signature "()V", bound to `nativeInit`) with count 1,
in a single call; so whenever `jniRegisterNativeMethods` answers that class name
and table with a non-negative value, the function returns a non-negative value
and writes nothing to the error log. -/
theorem register_succeeds_on_expected_table (P : Platform) (env : P.JNIEnv) (w : World P)
    (hjni : 0 ≤ P.jniRegisterNativeMethods env
      "com/android/server/stats/pull/StatsPullAtomService"
      [⟨"nativeInit", "()V", .nativeInit⟩] 1) :
    jniCalls (register_android_server_stats_pull_StatsPullAtomService P env w).2
      = jniCalls w ++
        [⟨env, "com/android/server/stats/pull/StatsPullAtomService",
          [⟨"nativeInit", "()V", .nativeInit⟩], 1⟩]
    ∧ 0 ≤ (register_android_server_stats_pull_StatsPullAtomService P env w).1
    ∧ errorLog (register_android_server_stats_pull_StatsPullAtomService P env w).2
        = errorLog w := by
  have hres := fst_register P env w
  simp only [sMethods] at hres
  have hnonneg : 0 ≤ (register_android_server_stats_pull_StatsPullAtomService P env w).1 := by
    rw [hres]
    exact hjni
  refine ⟨?_, hnonneg, ?_⟩
  · unfold jniCalls
    rw [effects_register]
    simp only [sMethods]
    split <;> simp [Effect.jniCall?, List.filterMap_append]
  · rw [errorLog_register, if_neg (Int.not_lt.mpr hnonneg)]
    simp

/-- Witness for C5 on the demo platform, whose JNI registration returns 0 on the
expected class name and table and -1 on anything else. -/
theorem register_succeeds_on_expected_table_witness :
    0 ≤ demoPlatform.jniRegisterNativeMethods ()
      "com/android/server/stats/pull/StatsPullAtomService"
      [⟨"nativeInit", "()V", .nativeInit⟩] 1
    ∧ (jniCalls (register_android_server_stats_pull_StatsPullAtomService
          demoPlatform () demoWorld).2
        = jniCalls demoWorld ++
          [⟨(), "com/android/server/stats/pull/StatsPullAtomService",
            [⟨"nativeInit", "()V", .nativeInit⟩], 1⟩]
      ∧ 0 ≤ (register_android_server_stats_pull_StatsPullAtomService
          demoPlatform () demoWorld).1
      ∧ errorLog (register_android_server_stats_pull_StatsPullAtomService
          demoPlatform () demoWorld).2 = errorLog demoWorld) :=
  ⟨by decide, register_succeeds_on_expected_table demoPlatform () demoWorld (by decide)⟩

/-- C7: whatever `jniRegisterNativeMethods` returns, negative values included,
the function calls it exactly once, registers no pull-atom callback, calls no
puller and leaves both global pullers as they were; apart from that one call the
trace grows by at most the one error message. -/
theorem register_no_retry_no_recovery (P : Platform) (env : P.JNIEnv) (w : World P) :
    jniCalls (register_android_server_stats_pull_StatsPullAtomService P env w).2
      = jniCalls w ++
        [⟨env, "com/android/server/stats/pull/StatsPullAtomService",
          [⟨"nativeInit", "()V", .nativeInit⟩], 1⟩]
    ∧ registrationLog (register_android_server_stats_pull_StatsPullAtomService P env w).2
        = registrationLog w
    ∧ powerPullCalls (register_android_server_stats_pull_StatsPullAtomService P env w).2
        = powerPullCalls w
    ∧ sleepPullCalls (register_android_server_stats_pull_StatsPullAtomService P env w).2
        = sleepPullCalls w
    ∧ (register_android_server_stats_pull_StatsPullAtomService P env w).2.gPowerStatsPuller
        = w.gPowerStatsPuller
    ∧ (register_android_server_stats_pull_StatsPullAtomService P env w).2.gSubsystemSleepStatePuller
        = w.gSubsystemSleepStatePuller
    ∧ (register_android_server_stats_pull_StatsPullAtomService P env w).2.effects
        = w.effects
          ++ [.jniRegisterNativeMethods
                ⟨env, "com/android/server/stats/pull/StatsPullAtomService",
                 [⟨"nativeInit", "()V", .nativeInit⟩], 1⟩]
          ++ (if (register_android_server_stats_pull_StatsPullAtomService P env w).1 < 0
              then [.ALOGE "StatsPullAtomService" "failed to register native methods"]
              else []) := by
  have heff := effects_register P env w
  simp only [sMethods, LOG_TAG] at heff
  have hres := fst_register P env w
  simp only [sMethods] at hres
  refine ⟨?_, ?_, ?_, ?_, ?_, ?_, ?_⟩
  · unfold jniCalls
    rw [heff]
    split <;> simp [Effect.jniCall?, List.filterMap_append]
  · unfold registrationLog
    rw [heff]
    split <;> simp [Effect.registration?, List.filterMap_append]
  · unfold powerPullCalls
    rw [heff]
    split <;> simp [Effect.powerPull?, List.filterMap_append]
  · unfold sleepPullCalls
    rw [heff]
    split <;> simp [Effect.sleepPull?, List.filterMap_append]
  · simp only [register_android_server_stats_pull_StatsPullAtomService,
      call_jniRegisterNativeMethods]
    split <;> rfl
  · simp only [register_android_server_stats_pull_StatsPullAtomService,
      call_jniRegisterNativeMethods]
    split <;> rfl
  · rw [hres]
    exact heff

end android
